import Mathlib

/-!
Shallow embedding of the `financeiro` repository's core: the identity
validator (`clientes/models.py`), the ledger data model and validator
(`financeiro/models.py`), the balance calculator
(`ContaBancaria.saldo_atual`), and the recurring-entry generator
(`financeiro/services.py`).

Conventions of the embedding:
* Django model instances become Lean structures; foreign keys to objects the
  code dereferences (`item.contrato`, `contrato.cliente_id`, ...) are stored
  as embedded structures or as numeric ids, exactly as the code reads them.
* `DecimalField(max_digits=12, decimal_places=2)` money is represented as an
  integer number of cents (`Int`), which models exact decimal arithmetic.
* The database table of ledger entries is a `List Lancamento`; the
  `ItemContrato` table is a `List ItemContrato` passed to the generator.
* Python `datetime.date` becomes the `Date` structure with the Gregorian
  last-day-of-month rule of `calendar.monthrange`.
* Exceptions (`ValueError`, `ValidationError`, `IntegrityError`) become an
  `Except GenError` result; Django's `@transaction.atomic` becomes the
  `transactionAtomic` runner, which keeps the original table on error.
-/

/-- A calendar date, as Python's `datetime.date`. -/
structure Date where
  year : Nat
  month : Nat
  day : Nat
deriving DecidableEq, Repr

/-- Comparison `a <= b` on dates (lexicographic year, month, day), as Python compares dates. -/
def Date.leb (a b : Date) : Bool :=
  if a.year ≠ b.year then a.year < b.year
  else if a.month ≠ b.month then a.month < b.month
  else a.day ≤ b.day

/-- Comparison `a < b` on dates, as Python compares dates. -/
def Date.ltb (a b : Date) : Bool :=
  if a.year ≠ b.year then a.year < b.year
  else if a.month ≠ b.month then a.month < b.month
  else a.day < b.day

/-- Leap-year rule used by `calendar.monthrange`. -/
def anoBissexto (y : Nat) : Bool :=
  (y % 4 == 0 && y % 100 != 0) || y % 400 == 0

/-- The last day of month `m` of year `y`, as `calendar.monthrange(y, m)[1]`. -/
def ultimoDiaDoMes (y m : Nat) : Nat :=
  if m == 2 then (if anoBissexto y then 29 else 28)
  else if m == 4 || m == 6 || m == 9 || m == 11 then 30
  else 31

/-- Embeds `services._data_vencimento_para_mes`: clamp the billing day into the
reference month. -/
def dataVencimentoParaMes (dia_vencimento : Nat) (referencia : Date) : Date :=
  let ultimo_dia := ultimoDiaDoMes referencia.year referencia.month
  ⟨referencia.year, referencia.month, min dia_vencimento ultimo_dia⟩

/-- First day of the reference month, `date(referencia.year, referencia.month, 1)`,
used as the competence date. -/
def primeiroDiaDoMes (referencia : Date) : Date :=
  ⟨referencia.year, referencia.month, 1⟩

/-! ## Identity validator (`clientes/models.py`) -/

/-- Stripping as `re.sub(r"\D", "", s)` followed by reading each digit: the list of decimal
digit values remaining after stripping every non-digit character. -/
def apenasDigitos (s : String) : List Nat :=
  (s.data.filter Char.isDigit).map (fun c => c.toNat - 48)

/-- The `cpf == cpf[0] * 11`-style check: every element equals the first. -/
def todosIguais (ds : List Nat) : Bool :=
  match ds with
  | [] => true
  | d :: resto => resto.all (· == d)

/-- The loop inside `calc_digito`: weighted sum with a factor that starts at
`fator` and decreases by one for each digit. -/
def somaComFatorDecrescente : List Nat → Nat → Nat
  | [], _ => 0
  | d :: resto, fator => d * fator + somaComFatorDecrescente resto (fator - 1)

/-- Embeds `calc_digito(cpf_slice, fator_inicial)` from `valida_cpf`, returning the
check digit as a number. -/
def calcDigito (fatia : List Nat) (fator_inicial : Nat) : Nat :=
  let resto := somaComFatorDecrescente fatia fator_inicial % 11
  if resto < 2 then 0 else 11 - resto

/-- Embeds `valida_cpf` from `clientes/models.py`.  The argument is `Option String`
because the function accepts an absent value (`cpf or ""`). -/
def validaCpf (cpf : Option String) : Bool :=
  let ds := apenasDigitos (cpf.getD "")
  if ds.length != 11 then false
  else if todosIguais ds then false
  else
    let d1 := calcDigito (ds.take 9) 10
    let d2 := calcDigito (ds.take 10) 11
    ds.drop 9 == [d1, d2]

/-- Modelled from the spec (§4.1 / claim C8), for the refinement comparison
with `validaCpf`: weights `10..2` over the first 9 digits for check digit 1,
weights `11..2` over the first 9 digits plus the computed digit 1 for check
digit 2, remainder below 2 mapping to 0 and otherwise `11 − remainder`; valid
iff exactly 11 digits remain after stripping, they are not all identical, and
the last two digits equal the two computed check digits in order. -/
def cpfSpecValid (entrada : Option String) : Bool :=
  let ds := apenasDigitos (entrada.getD "")
  let pesos1 : List Nat := [10, 9, 8, 7, 6, 5, 4, 3, 2]
  let pesos2 : List Nat := [11, 10, 9, 8, 7, 6, 5, 4, 3, 2]
  let digito := fun (fatia pesos : List Nat) =>
    let resto := (List.zipWith (fun d p => d * p) fatia pesos).sum % 11
    if resto < 2 then 0 else 11 - resto
  ds.length == 11 &&
    !(todosIguais ds) &&
    (let d1 := digito (ds.take 9) pesos1
     let d2 := digito (ds.take 9 ++ [d1]) pesos2
     ds.drop 9 == [d1, d2])

/-! ## Data model (`financeiro/models.py`, `contratos/models.py`) -/

/-- Embeds `contratos.models.Servico` (the fields the core reads). -/
structure Servico where
  id : Nat
  nome : String
deriving DecidableEq, Repr

/-- Embeds `contratos.models.Contrato` (the fields the core reads); `cliente_id` is
the foreign key to the owning `Cliente`. -/
structure Contrato where
  id : Nat
  cliente_id : Nat
  ativo : Bool
  dia_vencimento : Option Nat
  data_inicio : Date
  data_fim : Option Date
deriving DecidableEq, Repr

/-- Embeds `Contrato.vigente_hoje`: active and in the start–end date range today. -/
def vigenteHoje (hoje : Date) (c : Contrato) : Bool :=
  match c.data_fim with
  | some fim => c.ativo && Date.leb c.data_inicio hoje && Date.leb hoje fim
  | none => c.ativo && Date.leb c.data_inicio hoje

/-- Embeds `contratos.models.ItemContrato`; `valor_acordado` is in cents. -/
structure ItemContrato where
  id : Nat
  contrato : Contrato
  servico : Servico
  tipo : String
  valor_acordado : Int
deriving DecidableEq, Repr

/-- Embeds `financeiro.models.Categoria`. -/
structure Categoria where
  id : Nat
  nome : String
  tipo : String
deriving DecidableEq, Repr

/-- Embeds `financeiro.models.ContaBancaria` (the fields the core reads);
`saldo_inicial` is in cents. -/
structure ContaBancaria where
  id : Nat
  saldo_inicial : Int
deriving DecidableEq, Repr

/-- Embeds `financeiro.models.Lancamento`.  Object-valued foreign keys the code
dereferences (`contrato`, `item_contrato`, `categoria`) are embedded;
`cliente`, `centro_custo` and `conta` are only ever compared or stored, so
they are kept as ids.  `valor` is in cents. -/
structure Lancamento where
  tipo : String
  cliente_id : Option Nat
  contrato : Option Contrato
  item_contrato : Option ItemContrato
  categoria : Option Categoria
  centro_custo_id : Option Nat
  conta_id : Nat
  descricao : String
  valor : Int
  competencia : Option Date
  data : Date
  data_vencimento : Option Date
  situacao : String
  nota_fiscal_emitida : Bool
  eh_extra : Bool
deriving DecidableEq, Repr

/-! ## Ledger entry validation (`Lancamento.clean` / `Lancamento.save`) -/

/-- The two auto-fill statements shared by `Lancamento.clean` and
`Lancamento.save`: contract from item, then client from contract. -/
def preencheVinculos (l0 : Lancamento) : Lancamento :=
  let l1 :=
    if l0.item_contrato.isSome && l0.contrato.isNone then
      { l0 with contrato := l0.item_contrato.map (·.contrato) }
    else l0
  if l1.contrato.isSome && l1.cliente_id.isNone then
    { l1 with cliente_id := l1.contrato.map (·.cliente_id) }
  else l1

/-- Rule 3: `self.item_contrato and self.contrato and
self.item_contrato.contrato_id != self.contrato_id`. -/
def itemForaDoContrato (l : Lancamento) : Bool :=
  match l.item_contrato, l.contrato with
  | some it, some c => it.contrato.id ≠ c.id
  | _, _ => false

/-- Rule 4: `self.contrato and self.cliente and
self.contrato.cliente_id != self.cliente_id`. -/
def clienteDivergente (l : Lancamento) : Bool :=
  match l.contrato, l.cliente_id with
  | some c, some cid => c.cliente_id ≠ cid
  | _, _ => false

/-- Rule 5: `self.categoria_id and self.categoria.tipo != self.tipo`. -/
def categoriaIncompativel (l : Lancamento) : Bool :=
  match l.categoria with
  | some cat => cat.tipo ≠ l.tipo
  | none => false

/-- Rule 6: `self.situacao == "PENDENTE" and not self.data_vencimento`. -/
def pendenteSemVencimento (l : Lancamento) : Bool :=
  l.situacao == "PENDENTE" && l.data_vencimento.isNone

/-- Rule 7: `self.situacao == "PAGO" and self.data_vencimento and
self.data_vencimento > timezone.now().date()` with the clock passed in. -/
def pagoComVencimentoFuturo (hoje : Date) (l : Lancamento) : Bool :=
  match l.data_vencimento with
  | some v => l.situacao == "PAGO" && Date.ltb hoje v
  | none => false

/-- The error-collection block of `Lancamento.clean`: one `(field, message)`
pair appended for each violated consistency rule, in source order. -/
def verificaConsistencia (hoje : Date) (l : Lancamento) : List (String × String) :=
  let errs : List (String × String) := []
  let errs := if itemForaDoContrato l then
    errs ++ [("item_contrato", "Item do contrato nao pertence ao contrato selecionado.")]
  else errs
  let errs := if clienteDivergente l then
    errs ++ [("cliente", "Cliente precisa ser o mesmo do contrato.")]
  else errs
  let errs := if categoriaIncompativel l then
    errs ++ [("categoria", "Tipo do lancamento deve casar com o tipo da categoria.")]
  else errs
  let errs := if pendenteSemVencimento l then
    errs ++ [("data_vencimento", "Pendentes precisam de data de vencimento.")]
  else errs
  let errs := if pagoComVencimentoFuturo hoje l then
    errs ++ [("data_vencimento", "Nao marque como PAGO com vencimento futuro.")]
  else errs
  errs

/-- Embeds `Lancamento.clean`: first the auto-fill mutation, then the consistency
checks on the mutated instance; returns the mutated entry together with the
field-keyed error map (raised as `ValidationError` when non-empty). -/
def cleanLancamento (hoje : Date) (l0 : Lancamento) : Lancamento × List (String × String) :=
  let l := preencheVinculos l0
  (l, verificaConsistencia hoje l)

/-! ## Persistence: the partial unique constraint and `save` -/

/-- The predicate of the generator's existence query:
`Lancamento.objects.filter(item_contrato=item, competencia=competencia,
tipo="ENTRADA").exists()`. -/
def lancamentoJaExiste (db : List Lancamento) (itemId : Nat) (competencia : Date) : Bool :=
  db.any (fun r =>
    r.item_contrato.map (·.id) == some itemId &&
    r.competencia == some competencia &&
    r.tipo == "ENTRADA")

/-- The partial unique constraint `uniq_item_contrato_competencia_tipo`:
inserting `l` conflicts when `l` has non-null item and competence and the
table already holds a row with non-null item and competence and the same
`(item_contrato, competencia, tipo)` triple. -/
def violaRestricaoUnica (db : List Lancamento) (l : Lancamento) : Bool :=
  l.item_contrato.isSome && l.competencia.isSome &&
    db.any (fun r =>
      r.item_contrato.isSome && r.competencia.isSome &&
      r.item_contrato.map (·.id) == l.item_contrato.map (·.id) &&
      r.competencia == l.competencia &&
      r.tipo == l.tipo)

/-- Errors the generator can surface: `ValueError` for missing defaults,
`ValidationError` from `full_clean`, `IntegrityError` from the unique
constraint at save time. -/
inductive GenError where
  | configError
  | validationError (errs : List (String × String))
  | integrityError
deriving DecidableEq, Repr

/-- Embeds `Lancamento.save`: re-runs the auto-fill, then the INSERT, which fails
with an `IntegrityError` when the partial unique constraint fires. -/
def saveLancamento (db : List Lancamento) (l0 : Lancamento) :
    Except GenError (List Lancamento) :=
  let l := preencheVinculos l0
  if violaRestricaoUnica db l then .error .integrityError
  else .ok (db ++ [l])

/-! ## Balance calculator (`ContaBancaria.saldo_atual`) -/

/-- Django's `aggregate(total=Sum("valor"))["total"]`: `none` when the
queryset is empty, otherwise the sum. -/
def aggregateSum (vals : List Int) : Option Int :=
  match vals with
  | [] => none
  | _ => some vals.sum

/-- The `or Decimal("0")` fallback applied to the aggregate. -/
def orZero (x : Option Int) : Int :=
  match x with
  | none => 0
  | some t => t

/-- Embeds `ContaBancaria.saldo_atual`: opening balance plus paid income minus paid
expense, over the account's ledger entries. -/
def saldoAtual (conta : ContaBancaria) (db : List Lancamento) : Int :=
  let entradas := orZero (aggregateSum
    ((db.filter (fun l =>
      l.conta_id == conta.id && l.tipo == "ENTRADA" && l.situacao == "PAGO")).map (·.valor)))
  let saidas := orZero (aggregateSum
    ((db.filter (fun l =>
      l.conta_id == conta.id && l.tipo == "SAIDA" && l.situacao == "PAGO")).map (·.valor)))
  conta.saldo_inicial + entradas - saidas

/-! ## Recurring-entry generator (`financeiro/services.py`) -/

/-- Two-digit padding used by the `%m` format. -/
def pad2 (n : Nat) : String :=
  if n < 10 then "0" ++ toString n else toString n

/-- The competence description suffix, month/year formatted. -/
def formataCompetencia (c : Date) : String :=
  pad2 c.month ++ "/" ++ toString c.year

/-- The `Lancamento(...)` constructor call inside
`gerar_lancamentos_recorrentes`, field for field. -/
def montaLancamento (categoria : Categoria) (conta : ContaBancaria)
    (centro_custo : Option Nat) (competencia vencimento : Date)
    (item : ItemContrato) : Lancamento :=
  { tipo := "ENTRADA"
    cliente_id := some item.contrato.cliente_id
    contrato := some item.contrato
    item_contrato := some item
    categoria := some categoria
    centro_custo_id := centro_custo
    conta_id := conta.id
    descricao := item.servico.nome ++ " - " ++ formataCompetencia competencia
    valor := item.valor_acordado
    competencia := some competencia
    data := competencia
    data_vencimento := some vencimento
    situacao := "PENDENTE"
    nota_fiscal_emitida := false
    eh_extra := false }

/-- The body of the generator's `for item in itens` loop for one item.
The loop reads the ledger table twice: once in the `.exists()` query and once
at `save()` (the INSERT's constraint check).  To be able to state what happens
when another transaction commits between those two reads, the two snapshots
are separate parameters; the sequential generator instantiates both with the
same threaded table. -/
def processaItem (hoje : Date) (categoria : Categoria) (conta : ContaBancaria)
    (centro_custo : Option Nat) (referencia competencia : Date)
    (dbCheck dbSave : List Lancamento) (item : ItemContrato) :
    Except GenError (List Lancamento × Option Lancamento) :=
  let vencimento := dataVencimentoParaMes (item.contrato.dia_vencimento.getD 1) referencia
  if lancamentoJaExiste dbCheck item.id competencia then
    .ok (dbSave, none)
  else
    let lanc := montaLancamento categoria conta centro_custo competencia vencimento item
    let cleaned := cleanLancamento hoje lanc
    if cleaned.2 ≠ [] then .error (.validationError cleaned.2)
    else
      match saveLancamento dbSave cleaned.1 with
      | .error e => .error e
      | .ok db' => .ok (db', some cleaned.1)

/-- The generator's loop over the selected items, threading the ledger table
and accumulating `criados`. -/
def gerarLoop (hoje : Date) (categoria : Categoria) (conta : ContaBancaria)
    (centro_custo : Option Nat) (referencia competencia : Date)
    (itens : List ItemContrato) (db : List Lancamento) (criados : List Lancamento) :
    Except GenError (List Lancamento × List Lancamento) :=
  match itens with
  | [] => .ok (db, criados)
  | item :: resto =>
    match processaItem hoje categoria conta centro_custo referencia competencia db db item with
    | .error e => .error e
    | .ok (db', none) =>
      gerarLoop hoje categoria conta centro_custo referencia competencia resto db' criados
    | .ok (db', some l) =>
      gerarLoop hoje categoria conta centro_custo referencia competencia resto db' (criados ++ [l])

/-- The generator's item query:
`ItemContrato.objects.filter(tipo="RECORRENTE", contrato__ativo=True)
.exclude(contrato__dia_vencimento__isnull=True)`. -/
def selecionaItens (itens : List ItemContrato) : List ItemContrato :=
  itens.filter (fun it =>
    it.tipo == "RECORRENTE" && it.contrato.ativo && it.contrato.dia_vencimento.isSome)

/-- Django's `@transaction.atomic`: run `f` against the table; keep its final
table on success, roll back to the original table on any error. -/
def transactionAtomic {α : Type} (db : List Lancamento)
    (f : List Lancamento → Except GenError (List Lancamento × α)) :
    List Lancamento × Except GenError α :=
  match f db with
  | .ok (db', a) => (db', .ok a)
  | .error e => (db, .error e)

/-- The entry the generator builds for `item` (the `montaLancamento` call with
the due date and competence the loop computes from `referencia`). -/
def lancamentoGerado (categoria : Categoria) (conta : ContaBancaria)
    (centro_custo : Option Nat) (referencia competencia : Date)
    (item : ItemContrato) : Lancamento :=
  montaLancamento categoria conta centro_custo competencia
    (dataVencimentoParaMes (item.contrato.dia_vencimento.getD 1) referencia) item

/-- Embeds `gerar_lancamentos_recorrentes`.  The argument `hoje` is `timezone.now().date()`;
`categoria_padrao` and `conta_padrao` are `Option`s because the Python
signature accepts absent values (checked with `if not ...`); `itens` is the
`ItemContrato` table and `db` the `Lancamento` table.  Returns the final
ledger table and either the created entries or the surfaced error. -/
def gerarLancamentosRecorrentes (hoje : Date) (categoria_padrao : Option Categoria)
    (conta_padrao : Option ContaBancaria) (centro_custo_padrao : Option Nat)
    (data_referencia : Option Date) (itens : List ItemContrato)
    (db : List Lancamento) : List Lancamento × Except GenError (List Lancamento) :=
  transactionAtomic db (fun db0 =>
    match categoria_padrao, conta_padrao with
    | some categoria, some conta =>
      let referencia := data_referencia.getD hoje
      let competencia := primeiroDiaDoMes referencia
      gerarLoop hoje categoria conta centro_custo_padrao referencia competencia
        (selecionaItens itens) db0 []
    | _, _ => .error .configError)

/-! ## A concrete scenario, used to instantiate the theorems -/

/-- An active contract with billing day 15. -/
def exContrato : Contrato := ⟨1, 10, true, some 15, ⟨2025, 1, 1⟩, none⟩

/-- A recurring item of `exContrato`, agreed value 200.00. -/
def exItem : ItemContrato := ⟨1, exContrato, ⟨1, "Servico R"⟩, "RECORRENTE", 20000⟩

/-- An active contract with billing day 31 (to be clamped in February). -/
def exContrato31 : Contrato := ⟨2, 20, true, some 31, ⟨2025, 1, 1⟩, none⟩

/-- A recurring item of `exContrato31`, agreed value 100.50. -/
def exItem31 : ItemContrato := ⟨2, exContrato31, ⟨2, "Servico M"⟩, "RECORRENTE", 10050⟩

/-- An active contract whose end date is already past on `exHoje`. -/
def exContratoVencido : Contrato := ⟨3, 30, true, some 15, ⟨2024, 1, 1⟩, some ⟨2024, 12, 31⟩⟩

/-- A recurring item of `exContratoVencido`. -/
def exItemVencido : ItemContrato := ⟨3, exContratoVencido, ⟨3, "Servico E"⟩, "RECORRENTE", 5000⟩

/-- An `ENTRADA` category. -/
def exCategoria : Categoria := ⟨1, "Receita", "ENTRADA"⟩

/-- A `SAIDA` category. -/
def exCategoriaSaida : Categoria := ⟨2, "Despesa", "SAIDA"⟩

/-- A bank account with opening balance 0. -/
def exConta : ContaBancaria := ⟨1, 0⟩

/-- The clock for the scenario: 2025-02-20. -/
def exHoje : Date := ⟨2025, 2, 20⟩

/-- A new manual entry on which only the contract item is set (contract and
client left blank). -/
def exLancSoItem : Lancamento :=
  ⟨"ENTRADA", none, none, some exItem, some exCategoria, none, 1, "Manual", 100,
    none, ⟨2025, 2, 1⟩, some ⟨2025, 2, 15⟩, "PENDENTE", false, false⟩

/-! ## Helper lemmas about the generator -/

/-- The entry built by the generator has every link already set, so the
auto-fill of `clean`/`save` leaves it unchanged. -/
lemma preenche_monta (categoria : Categoria) (conta : ContaBancaria)
    (cc : Option Nat) (comp venc : Date) (item : ItemContrato) :
    preencheVinculos (montaLancamento categoria conta cc comp venc item)
      = montaLancamento categoria conta cc comp venc item := rfl

/-- Running `full_clean` on a generator-built entry: the only consistency rule that
can fire is the category/kind match. -/
lemma clean_monta (hoje : Date) (categoria : Categoria) (conta : ContaBancaria)
    (cc : Option Nat) (comp venc : Date) (item : ItemContrato) :
    cleanLancamento hoje (montaLancamento categoria conta cc comp venc item)
      = (montaLancamento categoria conta cc comp venc item,
         if categoria.tipo = "ENTRADA" then []
         else [("categoria", "Tipo do lancamento deve casar com o tipo da categoria.")]) := by
  unfold cleanLancamento verificaConsistencia
  rw [preenche_monta]
  by_cases h : categoria.tipo = "ENTRADA" <;>
    simp [itemForaDoContrato, clienteDivergente, categoriaIncompativel,
      pendenteSemVencimento, pagoComVencimentoFuturo, montaLancamento, h]

/-- The unique-constraint check on a generator-built entry coincides with the
generator's own existence query. -/
lemma viola_monta (db : List Lancamento) (categoria : Categoria)
    (conta : ContaBancaria) (cc : Option Nat) (comp venc : Date)
    (item : ItemContrato) :
    violaRestricaoUnica db (montaLancamento categoria conta cc comp venc item)
      = lancamentoJaExiste db item.id comp := by
  unfold violaRestricaoUnica lancamentoJaExiste
  simp only [montaLancamento, Option.isSome_some, Bool.true_and, Option.map_some']
  induction db with
  | nil => rfl
  | cons r resto ih =>
    simp only [List.any_cons, ih]
    congr 1
    cases hit : r.item_contrato <;> cases hc : r.competencia <;> simp [hit, hc]

/-- The loop body in the sequential run (`dbCheck = dbSave`): skip when the
entry exists, create when the category kind matches, raise the category
validation error otherwise. -/
lemma processaItem_seq (hoje : Date) (categoria : Categoria) (conta : ContaBancaria)
    (cc : Option Nat) (referencia competencia : Date) (db : List Lancamento)
    (item : ItemContrato) :
    processaItem hoje categoria conta cc referencia competencia db db item =
      if lancamentoJaExiste db item.id competencia then .ok (db, none)
      else if categoria.tipo = "ENTRADA" then
        .ok (db ++ [lancamentoGerado categoria conta cc referencia competencia item],
          some (lancamentoGerado categoria conta cc referencia competencia item))
      else .error (.validationError
        [("categoria", "Tipo do lancamento deve casar com o tipo da categoria.")]) := by
  unfold processaItem lancamentoGerado
  by_cases hex : lancamentoJaExiste db item.id competencia
  · simp [hex]
  · by_cases hcat : categoria.tipo = "ENTRADA"
    · simp [hex, hcat, clean_monta, saveLancamento, preenche_monta, viola_monta]
    · simp [hex, hcat, clean_monta]

/-- The existence query distributes over an appended table. -/
lemma jaExiste_append (db db' : List Lancamento) (i : Nat) (c : Date) :
    lancamentoJaExiste (db ++ db') i c =
      (lancamentoJaExiste db i c || lancamentoJaExiste db' i c) := by
  simp [lancamentoJaExiste, List.any_append]

/-- A generated entry satisfies the existence query for its own item and
competence. -/
lemma jaExiste_gerado_self (categoria : Categoria) (conta : ContaBancaria)
    (cc : Option Nat) (referencia competencia : Date) (item : ItemContrato) :
    lancamentoJaExiste [lancamentoGerado categoria conta cc referencia competencia item]
      item.id competencia = true := by
  simp [lancamentoJaExiste, lancamentoGerado, montaLancamento]

/-- A generated entry never satisfies the existence query of a different
item id. -/
lemma jaExiste_gerado_other (categoria : Categoria) (conta : ContaBancaria)
    (cc : Option Nat) (referencia competencia : Date) (item : ItemContrato)
    (i : Nat) (hne : item.id ≠ i) :
    lancamentoJaExiste [lancamentoGerado categoria conta cc referencia competencia item]
      i competencia = false := by
  simp [lancamentoJaExiste, lancamentoGerado, montaLancamento, hne]

/-- A successful loop run appends a block of generated entries to the table
and returns exactly that block: the final table extends the initial one, the
created list extends the accumulator by the same block, and every entry of
the block is the generated entry of some processed item. -/
lemma gerarLoop_ok_decomp (hoje : Date) (categoria : Categoria) (conta : ContaBancaria)
    (cc : Option Nat) (referencia competencia : Date) :
    ∀ (itens : List ItemContrato) (db acc dbF cr : List Lancamento),
      gerarLoop hoje categoria conta cc referencia competencia itens db acc = .ok (dbF, cr) →
      ∃ novo, dbF = db ++ novo ∧ cr = acc ++ novo ∧
        ∀ l ∈ novo, ∃ it, it ∈ itens ∧
          l = lancamentoGerado categoria conta cc referencia competencia it := by
  intro itens
  induction itens with
  | nil =>
    intro db acc dbF cr h
    simp only [gerarLoop, Except.ok.injEq, Prod.mk.injEq] at h
    refine ⟨[], by simp [h.1], by simp [h.2], by simp⟩
  | cons item resto ih =>
    intro db acc dbF cr h
    simp only [gerarLoop] at h
    rw [processaItem_seq] at h
    by_cases hex : lancamentoJaExiste db item.id competencia = true
    · rw [if_pos hex] at h
      replace h : gerarLoop hoje categoria conta cc referencia competencia resto db acc
          = .ok (dbF, cr) := h
      obtain ⟨novo, h1, h2, h3⟩ := ih db acc dbF cr h
      refine ⟨novo, h1, h2, fun l hl => ?_⟩
      obtain ⟨it, hit, hel⟩ := h3 l hl
      exact ⟨it, List.mem_cons_of_mem _ hit, hel⟩
    · rw [if_neg hex] at h
      by_cases hcat : categoria.tipo = "ENTRADA"
      · rw [if_pos hcat] at h
        replace h : gerarLoop hoje categoria conta cc referencia competencia resto
            (db ++ [lancamentoGerado categoria conta cc referencia competencia item])
            (acc ++ [lancamentoGerado categoria conta cc referencia competencia item])
            = .ok (dbF, cr) := h
        obtain ⟨novo, h1, h2, h3⟩ := ih _ _ _ _ h
        refine ⟨lancamentoGerado categoria conta cc referencia competencia item :: novo,
          by rw [h1]; simp, by rw [h2]; simp, fun l hl => ?_⟩
        rcases List.mem_cons.mp hl with hl | hl
        · exact ⟨item, List.mem_cons_self _ _, hl⟩
        · obtain ⟨it, hit, hel⟩ := h3 l hl
          exact ⟨it, List.mem_cons_of_mem _ hit, hel⟩
      · rw [if_neg hcat] at h
        exact absurd h (by simp)

/-- After a successful loop run, every processed item has a matching
`(item, competence, ENTRADA)` entry in the final table. -/
lemma gerarLoop_cobre (hoje : Date) (categoria : Categoria) (conta : ContaBancaria)
    (cc : Option Nat) (referencia competencia : Date) :
    ∀ (itens : List ItemContrato) (db acc dbF cr : List Lancamento),
      gerarLoop hoje categoria conta cc referencia competencia itens db acc = .ok (dbF, cr) →
      ∀ it ∈ itens, lancamentoJaExiste dbF it.id competencia = true := by
  intro itens
  induction itens with
  | nil => intro db acc dbF cr h it hit; exact absurd hit (List.not_mem_nil _)
  | cons item resto ih =>
    intro db acc dbF cr h it hit
    simp only [gerarLoop] at h
    rw [processaItem_seq] at h
    by_cases hex : lancamentoJaExiste db item.id competencia = true
    · rw [if_pos hex] at h
      replace h : gerarLoop hoje categoria conta cc referencia competencia resto db acc
          = .ok (dbF, cr) := h
      rcases List.mem_cons.mp hit with rfl | hit'
      · obtain ⟨novo, h1, -, -⟩ :=
          gerarLoop_ok_decomp hoje categoria conta cc referencia competencia resto db acc dbF cr h
        rw [h1, jaExiste_append, hex]
        rfl
      · exact ih db acc dbF cr h it hit'
    · rw [if_neg hex] at h
      by_cases hcat : categoria.tipo = "ENTRADA"
      · rw [if_pos hcat] at h
        replace h : gerarLoop hoje categoria conta cc referencia competencia resto
            (db ++ [lancamentoGerado categoria conta cc referencia competencia item])
            (acc ++ [lancamentoGerado categoria conta cc referencia competencia item])
            = .ok (dbF, cr) := h
        rcases List.mem_cons.mp hit with rfl | hit'
        · obtain ⟨novo, h1, -, -⟩ :=
            gerarLoop_ok_decomp hoje categoria conta cc referencia competencia resto _ _ dbF cr h
          rw [h1, jaExiste_append, jaExiste_append,
            jaExiste_gerado_self categoria conta cc referencia competencia it]
          simp
        · exact ih _ _ dbF cr h it hit'
      · rw [if_neg hcat] at h
        exact absurd h (by simp)

/-- When every processed item already has a matching entry, the loop is a
no-op: the table and the accumulator come back unchanged. -/
lemma gerarLoop_pula_tudo (hoje : Date) (categoria : Categoria) (conta : ContaBancaria)
    (cc : Option Nat) (referencia competencia : Date) :
    ∀ (itens : List ItemContrato) (db acc : List Lancamento),
      (∀ it ∈ itens, lancamentoJaExiste db it.id competencia = true) →
      gerarLoop hoje categoria conta cc referencia competencia itens db acc = .ok (db, acc) := by
  intro itens
  induction itens with
  | nil => intro db acc _; rfl
  | cons item resto ih =>
    intro db acc h
    simp only [gerarLoop]
    rw [processaItem_seq, if_pos (h item (List.mem_cons_self _ _))]
    exact ih db acc (fun it hit => h it (List.mem_cons_of_mem _ hit))

/-- A generated entry carries its item's id. -/
lemma gerado_filtro_self (categoria : Categoria) (conta : ContaBancaria)
    (cc : Option Nat) (referencia competencia : Date) (it : ItemContrato) :
    ((lancamentoGerado categoria conta cc referencia competencia it).item_contrato.map (·.id)
      == some it.id) = true := by
  simp [lancamentoGerado, montaLancamento]

/-- A generated entry does not carry a different item id. -/
lemma gerado_filtro_other (categoria : Categoria) (conta : ContaBancaria)
    (cc : Option Nat) (referencia competencia : Date) (it : ItemContrato)
    (i : Nat) (hne : it.id ≠ i) :
    ((lancamentoGerado categoria conta cc referencia competencia it).item_contrato.map (·.id)
      == some i) = false := by
  simp [lancamentoGerado, montaLancamento, hne]

/-- In a successful loop run over items with pairwise distinct ids, an item
with no pre-existing matching entry contributes exactly one created entry —
the generated one — to the returned list. -/
lemma gerarLoop_exato (hoje : Date) (categoria : Categoria) (conta : ContaBancaria)
    (cc : Option Nat) (referencia competencia : Date) :
    ∀ (itens : List ItemContrato) (db acc dbF cr : List Lancamento) (it : ItemContrato),
      gerarLoop hoje categoria conta cc referencia competencia itens db acc = .ok (dbF, cr) →
      it ∈ itens →
      lancamentoJaExiste db it.id competencia = false →
      (itens.map (·.id)).Nodup →
      cr.filter (fun l => l.item_contrato.map (·.id) == some it.id)
        = acc.filter (fun l => l.item_contrato.map (·.id) == some it.id)
          ++ [lancamentoGerado categoria conta cc referencia competencia it] := by
  intro itens
  induction itens with
  | nil => intro db acc dbF cr it h hit; exact absurd hit (List.not_mem_nil _)
  | cons item resto ih =>
    intro db acc dbF cr it h hit hnm hnd
    rw [List.map_cons, List.nodup_cons] at hnd
    obtain ⟨hnd1, hnd2⟩ := hnd
    simp only [gerarLoop] at h
    rw [processaItem_seq] at h
    rcases List.mem_cons.mp hit with rfl | hit'
    · rw [if_neg (by simp [hnm])] at h
      by_cases hcat : categoria.tipo = "ENTRADA"
      · rw [if_pos hcat] at h
        replace h : gerarLoop hoje categoria conta cc referencia competencia resto
            (db ++ [lancamentoGerado categoria conta cc referencia competencia it])
            (acc ++ [lancamentoGerado categoria conta cc referencia competencia it])
            = .ok (dbF, cr) := h
        obtain ⟨novo, -, h2, h3⟩ :=
          gerarLoop_ok_decomp hoje categoria conta cc referencia competencia resto _ _ dbF cr h
        have hnovo : novo.filter (fun l => l.item_contrato.map (·.id) == some it.id) = [] := by
          rw [List.filter_eq_nil_iff]
          intro l hl
          obtain ⟨it', hit', rfl⟩ := h3 l hl
          have : it'.id ≠ it.id := by
            intro hcontr
            exact hnd1 (hcontr ▸ List.mem_map_of_mem (·.id) hit')
          simp [gerado_filtro_other categoria conta cc referencia competencia it' it.id this]
        rw [h2, List.filter_append, List.filter_append, hnovo, List.append_nil]
        simp [List.filter_singleton,
          gerado_filtro_self categoria conta cc referencia competencia it]
      · rw [if_neg hcat] at h
        exact absurd h (by simp)
    · have hne : it.id ≠ item.id := by
        intro hcontr
        exact hnd1 (hcontr ▸ List.mem_map_of_mem (·.id) hit')
      by_cases hex : lancamentoJaExiste db item.id competencia = true
      · rw [if_pos hex] at h
        replace h : gerarLoop hoje categoria conta cc referencia competencia resto db acc
            = .ok (dbF, cr) := h
        exact ih db acc dbF cr it h hit' hnm hnd2
      · rw [if_neg hex] at h
        by_cases hcat : categoria.tipo = "ENTRADA"
        · rw [if_pos hcat] at h
          replace h : gerarLoop hoje categoria conta cc referencia competencia resto
              (db ++ [lancamentoGerado categoria conta cc referencia competencia item])
              (acc ++ [lancamentoGerado categoria conta cc referencia competencia item])
              = .ok (dbF, cr) := h
          have hdb' : lancamentoJaExiste
              (db ++ [lancamentoGerado categoria conta cc referencia competencia item])
              it.id competencia = false := by
            rw [jaExiste_append, hnm,
              jaExiste_gerado_other categoria conta cc referencia competencia item it.id
                (fun hcontr => hne hcontr.symm)]
            rfl
          have := ih _ _ dbF cr it h hit' hdb' hnd2
          rw [this, List.filter_append]
          simp [List.filter_singleton,
            gerado_filtro_other categoria conta cc referencia competencia item
              it.id (fun hcontr => hne hcontr.symm)]
        · rw [if_neg hcat] at h
          exact absurd h (by simp)

/-- When the default category's kind is not `ENTRADA` and some selected item
has no pre-existing matching entry, the loop aborts with the category
validation error. -/
lemma gerarLoop_categoria_errada (hoje : Date) (categoria : Categoria)
    (conta : ContaBancaria) (cc : Option Nat) (referencia competencia : Date)
    (hcat : categoria.tipo ≠ "ENTRADA") :
    ∀ (itens : List ItemContrato) (db acc : List Lancamento) (it : ItemContrato),
      it ∈ itens →
      lancamentoJaExiste db it.id competencia = false →
      gerarLoop hoje categoria conta cc referencia competencia itens db acc
        = .error (.validationError
            [("categoria", "Tipo do lancamento deve casar com o tipo da categoria.")]) := by
  intro itens
  induction itens with
  | nil => intro db acc it hit; exact absurd hit (List.not_mem_nil _)
  | cons item resto ih =>
    intro db acc it hit hnm
    simp only [gerarLoop]
    rw [processaItem_seq]
    by_cases hex : lancamentoJaExiste db item.id competencia = true
    · rw [if_pos hex]
      rcases List.mem_cons.mp hit with rfl | hit'
      · rw [hnm] at hex; exact absurd hex (by simp)
      · exact ih db acc it hit' hnm
    · rw [if_neg hex, if_neg hcat]

/-! ## Claim theorems -/

/-- C1: `gerar_lancamentos_recorrentes` is idempotent for a fixed reference
date, default category/account and set of contract items: after a successful
first call, a second call with the same arguments creates zero additional
entries (every item already covered is skipped through the
`(item, competence, ENTRADA)` existence check) and leaves the ledger —
including every entry created by the first call — exactly as the first call
left it. -/
theorem gerar_recorrentes_idempotente (hoje : Date) (categoria_padrao : Option Categoria)
    (conta_padrao : Option ContaBancaria) (cc : Option Nat) (data_referencia : Option Date)
    (itens : List ItemContrato) (db db1 criados : List Lancamento)
    (h : gerarLancamentosRecorrentes hoje categoria_padrao conta_padrao cc data_referencia itens db
      = (db1, .ok criados)) :
    gerarLancamentosRecorrentes hoje categoria_padrao conta_padrao cc data_referencia itens db1
      = (db1, .ok []) := by
  cases categoria_padrao with
  | none =>
    rw [show gerarLancamentosRecorrentes hoje none conta_padrao cc data_referencia itens db
        = (db, .error .configError) from rfl] at h
    simp at h
  | some categoria =>
    cases conta_padrao with
    | none =>
      rw [show gerarLancamentosRecorrentes hoje (some categoria) none cc data_referencia itens db
          = (db, .error .configError) from rfl] at h
      simp at h
    | some conta =>
      have hunf : ∀ (d : List Lancamento),
          gerarLancamentosRecorrentes hoje (some categoria) (some conta) cc data_referencia itens d
          = transactionAtomic d (fun db0 =>
              gerarLoop hoje categoria conta cc (data_referencia.getD hoje)
                (primeiroDiaDoMes (data_referencia.getD hoje)) (selecionaItens itens) db0 []) :=
        fun d => rfl
      rw [hunf] at h
      rw [hunf]
      simp only [transactionAtomic] at h ⊢
      cases hloop : gerarLoop hoje categoria conta cc (data_referencia.getD hoje)
          (primeiroDiaDoMes (data_referencia.getD hoje)) (selecionaItens itens) db [] with
      | error e => rw [hloop] at h; simp at h
      | ok p =>
        obtain ⟨db', cr⟩ := p
        rw [hloop] at h
        simp only [Prod.mk.injEq, Except.ok.injEq] at h
        obtain ⟨rfl, rfl⟩ := h
        rw [gerarLoop_pula_tudo hoje categoria conta cc (data_referencia.getD hoje)
          (primeiroDiaDoMes (data_referencia.getD hoje)) (selecionaItens itens) db' []
          (gerarLoop_cobre hoje categoria conta cc (data_referencia.getD hoje)
            (primeiroDiaDoMes (data_referencia.getD hoje)) (selecionaItens itens) db [] db' cr
            hloop)]

theorem gerar_recorrentes_idempotente_witness :
    gerarLancamentosRecorrentes exHoje (some exCategoria) (some exConta) none none [exItem]
        [lancamentoGerado exCategoria exConta none exHoje ⟨2025, 2, 1⟩ exItem]
      = ([lancamentoGerado exCategoria exConta none exHoje ⟨2025, 2, 1⟩ exItem], .ok []) :=
  gerar_recorrentes_idempotente exHoje (some exCategoria) (some exConta) none none [exItem]
    [] [lancamentoGerado exCategoria exConta none exHoje ⟨2025, 2, 1⟩ exItem]
    [lancamentoGerado exCategoria exConta none exHoje ⟨2025, 2, 1⟩ exItem] rfl

/-- C4: the generator is all-or-nothing.  First, a missing default category
or default account raises the configuration error with the ledger untouched
(no work is done).  Second, whenever the invocation ends in any error —
configuration error, a validation failure on any single generated entry, or
an integrity error — the final ledger equals the initial one: no entry at
all is persisted by that invocation, so partial generation never occurs. -/
theorem gerar_recorrentes_tudo_ou_nada :
    (∀ (hoje : Date) (categoria_padrao : Option Categoria)
      (conta_padrao : Option ContaBancaria) (cc : Option Nat)
      (data_referencia : Option Date) (itens : List ItemContrato) (db : List Lancamento),
      categoria_padrao = none ∨ conta_padrao = none →
      gerarLancamentosRecorrentes hoje categoria_padrao conta_padrao cc data_referencia itens db
        = (db, .error .configError)) ∧
    (∀ (hoje : Date) (categoria_padrao : Option Categoria)
      (conta_padrao : Option ContaBancaria) (cc : Option Nat)
      (data_referencia : Option Date) (itens : List ItemContrato) (db : List Lancamento)
      (e : GenError),
      (gerarLancamentosRecorrentes hoje categoria_padrao conta_padrao cc
          data_referencia itens db).2 = .error e →
      (gerarLancamentosRecorrentes hoje categoria_padrao conta_padrao cc
          data_referencia itens db).1 = db) := by
  constructor
  · intro hoje cat conta cc dref itens db h
    rcases h with rfl | rfl
    · rfl
    · cases cat <;> rfl
  · intro hoje cat conta cc dref itens db e h
    cases cat with
    | none => rfl
    | some categoria =>
      cases conta with
      | none => rfl
      | some conta =>
        have hunf :
            gerarLancamentosRecorrentes hoje (some categoria) (some conta) cc dref itens db
            = transactionAtomic db (fun db0 =>
                gerarLoop hoje categoria conta cc (dref.getD hoje)
                  (primeiroDiaDoMes (dref.getD hoje)) (selecionaItens itens) db0 []) := rfl
        rw [hunf] at h ⊢
        simp only [transactionAtomic] at h ⊢
        cases hloop : gerarLoop hoje categoria conta cc (dref.getD hoje)
            (primeiroDiaDoMes (dref.getD hoje)) (selecionaItens itens) db [] with
        | error e' => rfl
        | ok p => obtain ⟨db', cr⟩ := p; rw [hloop] at h; simp at h

theorem gerar_recorrentes_tudo_ou_nada_witness :
    gerarLancamentosRecorrentes exHoje none (some exConta) none none [exItem] []
      = ([], .error .configError) :=
  gerar_recorrentes_tudo_ou_nada.1 exHoje none (some exConta) none none [exItem] []
    (Or.inl rfl)

/-- C2: in a successful run, every `RECORRENTE` item of an active contract
with a non-null billing day and no pre-existing `(item, competence, ENTRADA)`
entry yields exactly one created entry, whose fields are: kind `ENTRADA`,
client and contract copied from the item's contract, category, account and
cost center from the supplied defaults, value the item's agreed value,
competence and date both the first day of the reference month, due date the
billing day clamped to the last day of the reference month (`min d
(ultimoDiaDoMes ...)`, so day 31 in February becomes February's last day),
situation `PENDENTE`, invoice-issued false, extra false, and a description
composed from the service name and the competence month/year. -/
theorem gerar_recorrentes_entrada_correta (hoje : Date) (categoria : Categoria)
    (conta : ContaBancaria) (cc : Option Nat) (data_referencia : Option Date)
    (itens : List ItemContrato) (db dbF criados : List Lancamento)
    (it : ItemContrato) (d : Nat)
    (hrun : gerarLancamentosRecorrentes hoje (some categoria) (some conta) cc
      data_referencia itens db = (dbF, .ok criados))
    (hmem : it ∈ itens)
    (htipo : it.tipo = "RECORRENTE")
    (hativo : it.contrato.ativo = true)
    (hdia : it.contrato.dia_vencimento = some d)
    (hnovo : lancamentoJaExiste db it.id (primeiroDiaDoMes (data_referencia.getD hoje)) = false)
    (hnd : ((selecionaItens itens).map (·.id)).Nodup) :
    ∃ l, criados.filter (fun r => r.item_contrato.map (·.id) == some it.id) = [l] ∧
      l.tipo = "ENTRADA" ∧
      l.cliente_id = some it.contrato.cliente_id ∧
      l.contrato = some it.contrato ∧
      l.item_contrato = some it ∧
      l.categoria = some categoria ∧
      l.conta_id = conta.id ∧
      l.centro_custo_id = cc ∧
      l.valor = it.valor_acordado ∧
      l.competencia = some (primeiroDiaDoMes (data_referencia.getD hoje)) ∧
      l.data = primeiroDiaDoMes (data_referencia.getD hoje) ∧
      l.data_vencimento = some ⟨(data_referencia.getD hoje).year,
        (data_referencia.getD hoje).month,
        min d (ultimoDiaDoMes (data_referencia.getD hoje).year
          (data_referencia.getD hoje).month)⟩ ∧
      l.situacao = "PENDENTE" ∧
      l.nota_fiscal_emitida = false ∧
      l.eh_extra = false ∧
      l.descricao = it.servico.nome ++ " - "
        ++ formataCompetencia (primeiroDiaDoMes (data_referencia.getD hoje)) := by
  have hunf :
      gerarLancamentosRecorrentes hoje (some categoria) (some conta) cc data_referencia itens db
      = transactionAtomic db (fun db0 =>
          gerarLoop hoje categoria conta cc (data_referencia.getD hoje)
            (primeiroDiaDoMes (data_referencia.getD hoje)) (selecionaItens itens) db0 []) := rfl
  rw [hunf] at hrun
  simp only [transactionAtomic] at hrun
  cases hloop : gerarLoop hoje categoria conta cc (data_referencia.getD hoje)
      (primeiroDiaDoMes (data_referencia.getD hoje)) (selecionaItens itens) db [] with
  | error e => rw [hloop] at hrun; simp at hrun
  | ok p =>
    obtain ⟨db', cr⟩ := p
    rw [hloop] at hrun
    simp only [Prod.mk.injEq, Except.ok.injEq] at hrun
    obtain ⟨rfl, rfl⟩ := hrun
    have hsel : it ∈ selecionaItens itens := by
      refine List.mem_filter.mpr ⟨hmem, ?_⟩
      simp [htipo, hativo, hdia]
    have hfiltro := gerarLoop_exato hoje categoria conta cc (data_referencia.getD hoje)
      (primeiroDiaDoMes (data_referencia.getD hoje)) (selecionaItens itens) db [] db' cr it
      hloop hsel hnovo hnd
    simp only [List.filter_nil, List.nil_append] at hfiltro
    refine ⟨lancamentoGerado categoria conta cc (data_referencia.getD hoje)
      (primeiroDiaDoMes (data_referencia.getD hoje)) it, hfiltro, ?_⟩
    simp [lancamentoGerado, montaLancamento, dataVencimentoParaMes, hdia, primeiroDiaDoMes]

theorem gerar_recorrentes_entrada_correta_witness :
    ∃ l, (List.filter (fun r => r.item_contrato.map (·.id) == some exItem31.id)
        [lancamentoGerado exCategoria exConta none exHoje ⟨2025, 2, 1⟩ exItem31]) = [l] ∧
      l.tipo = "ENTRADA" ∧
      l.cliente_id = some exItem31.contrato.cliente_id ∧
      l.contrato = some exItem31.contrato ∧
      l.item_contrato = some exItem31 ∧
      l.categoria = some exCategoria ∧
      l.conta_id = exConta.id ∧
      l.centro_custo_id = none ∧
      l.valor = exItem31.valor_acordado ∧
      l.competencia = some (primeiroDiaDoMes ((none : Option Date).getD exHoje)) ∧
      l.data = primeiroDiaDoMes ((none : Option Date).getD exHoje) ∧
      l.data_vencimento = some ⟨((none : Option Date).getD exHoje).year,
        ((none : Option Date).getD exHoje).month,
        min 31 (ultimoDiaDoMes ((none : Option Date).getD exHoje).year
          ((none : Option Date).getD exHoje).month)⟩ ∧
      l.situacao = "PENDENTE" ∧
      l.nota_fiscal_emitida = false ∧
      l.eh_extra = false ∧
      l.descricao = exItem31.servico.nome ++ " - "
        ++ formataCompetencia (primeiroDiaDoMes ((none : Option Date).getD exHoje)) :=
  gerar_recorrentes_entrada_correta exHoje exCategoria exConta none none [exItem31] []
    [lancamentoGerado exCategoria exConta none exHoje ⟨2025, 2, 1⟩ exItem31]
    [lancamentoGerado exCategoria exConta none exHoje ⟨2025, 2, 1⟩ exItem31]
    exItem31 31 rfl (List.mem_cons_self _ _) rfl rfl rfl rfl (by decide)

/-- C9: item selection tests only `tipo = RECORRENTE`, the owning contract's
`ativo` flag and the presence of a billing day — never the contract's start
or end dates: a qualifying item is billed in a successful run even when the
contract is not in force (`vigente_hoje` false) on the clock date. -/
theorem gerar_recorrentes_ignora_vigencia (hoje : Date) (categoria : Categoria)
    (conta : ContaBancaria) (cc : Option Nat) (data_referencia : Option Date)
    (itens : List ItemContrato) (db dbF criados : List Lancamento) (it : ItemContrato)
    (hrun : gerarLancamentosRecorrentes hoje (some categoria) (some conta) cc
      data_referencia itens db = (dbF, .ok criados))
    (hmem : it ∈ itens)
    (htipo : it.tipo = "RECORRENTE")
    (hativo : it.contrato.ativo = true)
    (hdia : it.contrato.dia_vencimento.isSome = true)
    (hforaDeVigencia : vigenteHoje hoje it.contrato = false)
    (hnovo : lancamentoJaExiste db it.id (primeiroDiaDoMes (data_referencia.getD hoje)) = false)
    (hnd : ((selecionaItens itens).map (·.id)).Nodup) :
    lancamentoGerado categoria conta cc (data_referencia.getD hoje)
      (primeiroDiaDoMes (data_referencia.getD hoje)) it ∈ criados := by
  have hunf :
      gerarLancamentosRecorrentes hoje (some categoria) (some conta) cc data_referencia itens db
      = transactionAtomic db (fun db0 =>
          gerarLoop hoje categoria conta cc (data_referencia.getD hoje)
            (primeiroDiaDoMes (data_referencia.getD hoje)) (selecionaItens itens) db0 []) := rfl
  rw [hunf] at hrun
  simp only [transactionAtomic] at hrun
  cases hloop : gerarLoop hoje categoria conta cc (data_referencia.getD hoje)
      (primeiroDiaDoMes (data_referencia.getD hoje)) (selecionaItens itens) db [] with
  | error e => rw [hloop] at hrun; simp at hrun
  | ok p =>
    obtain ⟨db', cr⟩ := p
    rw [hloop] at hrun
    simp only [Prod.mk.injEq, Except.ok.injEq] at hrun
    obtain ⟨rfl, rfl⟩ := hrun
    have hsel : it ∈ selecionaItens itens := by
      refine List.mem_filter.mpr ⟨hmem, ?_⟩
      simp [htipo, hativo, hdia]
    have hfiltro := gerarLoop_exato hoje categoria conta cc (data_referencia.getD hoje)
      (primeiroDiaDoMes (data_referencia.getD hoje)) (selecionaItens itens) db [] db' cr it
      hloop hsel hnovo hnd
    simp only [List.filter_nil, List.nil_append] at hfiltro
    exact List.mem_of_mem_filter (hfiltro ▸ List.mem_singleton.mpr rfl)

theorem gerar_recorrentes_ignora_vigencia_witness :
    lancamentoGerado exCategoria exConta none exHoje ⟨2025, 2, 1⟩ exItemVencido
      ∈ [lancamentoGerado exCategoria exConta none exHoje ⟨2025, 2, 1⟩ exItemVencido] :=
  gerar_recorrentes_ignora_vigencia exHoje exCategoria exConta none none [exItemVencido] []
    [lancamentoGerado exCategoria exConta none exHoje ⟨2025, 2, 1⟩ exItemVencido]
    [lancamentoGerado exCategoria exConta none exHoje ⟨2025, 2, 1⟩ exItemVencido]
    exItemVencido rfl (List.mem_cons_self _ _) rfl rfl rfl rfl rfl (by decide)

/-- C10: if the supplied default category has kind `SAIDA` and some selected
item qualifies for generation (no pre-existing entry for the competence),
the generator raises the category-kind-mismatch validation error — every
generated entry has kind `ENTRADA` and is validated before persisting — and,
the batch being atomic, persists and returns no entries at all. -/
theorem gerar_recorrentes_categoria_saida_falha (hoje : Date) (categoria : Categoria)
    (conta : ContaBancaria) (cc : Option Nat) (data_referencia : Option Date)
    (itens : List ItemContrato) (db : List Lancamento) (it : ItemContrato)
    (hsaida : categoria.tipo = "SAIDA")
    (hmem : it ∈ selecionaItens itens)
    (hnovo : lancamentoJaExiste db it.id (primeiroDiaDoMes (data_referencia.getD hoje)) = false) :
    gerarLancamentosRecorrentes hoje (some categoria) (some conta) cc data_referencia itens db
      = (db, .error (.validationError
          [("categoria", "Tipo do lancamento deve casar com o tipo da categoria.")])) := by
  have hcat : categoria.tipo ≠ "ENTRADA" := by rw [hsaida]; decide
  have hunf :
      gerarLancamentosRecorrentes hoje (some categoria) (some conta) cc data_referencia itens db
      = transactionAtomic db (fun db0 =>
          gerarLoop hoje categoria conta cc (data_referencia.getD hoje)
            (primeiroDiaDoMes (data_referencia.getD hoje)) (selecionaItens itens) db0 []) := rfl
  rw [hunf]
  simp only [transactionAtomic]
  rw [gerarLoop_categoria_errada hoje categoria conta cc (data_referencia.getD hoje)
    (primeiroDiaDoMes (data_referencia.getD hoje)) hcat (selecionaItens itens) db [] it
    hmem hnovo]

theorem gerar_recorrentes_categoria_saida_falha_witness :
    gerarLancamentosRecorrentes exHoje (some exCategoriaSaida) (some exConta) none none
      [exItem] []
      = ([], .error (.validationError
          [("categoria", "Tipo do lancamento deve casar com o tipo da categoria.")])) :=
  gerar_recorrentes_categoria_saida_falha exHoje exCategoriaSaida exConta none none [exItem] []
    exItem rfl (by decide) rfl

/-- C3, counterexample: the generator does not catch the unique-constraint
violation.  When the `(item, competence, kind)` constraint fires at save time
— here the existence check saw an empty table while a racing run's entry is
already committed at save time — the loop body surfaces `IntegrityError`
instead of returning a successful no-op skip. -/
theorem gerar_constraint_corrida_cex :
    processaItem exHoje exCategoria exConta none exHoje ⟨2025, 2, 1⟩
      [] [lancamentoGerado exCategoria exConta none exHoje ⟨2025, 2, 1⟩ exItem] exItem
      = .error .integrityError ∧
    ∀ r : List Lancamento × Option Lancamento,
      processaItem exHoje exCategoria exConta none exHoje ⟨2025, 2, 1⟩
        [] [lancamentoGerado exCategoria exConta none exHoje ⟨2025, 2, 1⟩ exItem] exItem
        ≠ .ok r :=
  ⟨rfl, fun _ h => Except.noConfusion h⟩

/-- C3, amended: whenever the uniqueness constraint fires at save time after
a passed existence check (the racing-generator scenario), the loop body
propagates `IntegrityError` — it is not caught and not converted into a
skip; by the atomicity of the enclosing transaction the invocation then
fails with the ledger rolled back, so no duplicate is persisted but the race
is surfaced as an error. -/
theorem gerar_constraint_propaga (hoje : Date) (categoria : Categoria)
    (conta : ContaBancaria) (cc : Option Nat) (referencia competencia : Date)
    (dbCheck dbSave : List Lancamento) (item : ItemContrato)
    (hcat : categoria.tipo = "ENTRADA")
    (hcheck : lancamentoJaExiste dbCheck item.id competencia = false)
    (hsave : lancamentoJaExiste dbSave item.id competencia = true) :
    processaItem hoje categoria conta cc referencia competencia dbCheck dbSave item
      = .error .integrityError := by
  unfold processaItem
  rw [if_neg (by simp [hcheck])]
  simp [clean_monta, hcat, saveLancamento, preenche_monta, viola_monta, hsave]

theorem gerar_constraint_propaga_witness :
    processaItem exHoje exCategoria exConta none exHoje ⟨2025, 2, 1⟩
      [] [lancamentoGerado exCategoria exConta none exHoje ⟨2025, 2, 1⟩ exItem31] exItem31
      = .error .integrityError :=
  gerar_constraint_propaga exHoje exCategoria exConta none exHoje ⟨2025, 2, 1⟩
    [] [lancamentoGerado exCategoria exConta none exHoje ⟨2025, 2, 1⟩ exItem31] exItem31
    rfl rfl rfl

/-- C5: the pre-persist validator evaluates all of consistency rules 3–7 in
one pass and collects every applicable violation into the field-keyed error
map — it never stops at the first violation: each rule's key is present in
the map exactly when that rule is violated on the (auto-filled) entry, and
the entry passes validation exactly when the map is empty. -/
theorem clean_coleta_todas_as_violacoes (hoje : Date) (l : Lancamento) :
    (("item_contrato" ∈ (cleanLancamento hoje l).2.map Prod.fst) ↔
      itemForaDoContrato (cleanLancamento hoje l).1 = true) ∧
    (("cliente" ∈ (cleanLancamento hoje l).2.map Prod.fst) ↔
      clienteDivergente (cleanLancamento hoje l).1 = true) ∧
    (("categoria" ∈ (cleanLancamento hoje l).2.map Prod.fst) ↔
      categoriaIncompativel (cleanLancamento hoje l).1 = true) ∧
    (("data_vencimento" ∈ (cleanLancamento hoje l).2.map Prod.fst) ↔
      (pendenteSemVencimento (cleanLancamento hoje l).1 = true ∨
        pagoComVencimentoFuturo hoje (cleanLancamento hoje l).1 = true)) ∧
    ((cleanLancamento hoje l).2 = [] ↔
      (itemForaDoContrato (cleanLancamento hoje l).1 = false ∧
        clienteDivergente (cleanLancamento hoje l).1 = false ∧
        categoriaIncompativel (cleanLancamento hoje l).1 = false ∧
        pendenteSemVencimento (cleanLancamento hoje l).1 = false ∧
        pagoComVencimentoFuturo hoje (cleanLancamento hoje l).1 = false)) := by
  have hfst : (cleanLancamento hoje l).1 = preencheVinculos l := rfl
  have hsnd : (cleanLancamento hoje l).2 = verificaConsistencia hoje (preencheVinculos l) := rfl
  rw [hfst, hsnd]
  unfold verificaConsistencia
  by_cases e1 : itemForaDoContrato (preencheVinculos l) = true <;>
  by_cases e2 : clienteDivergente (preencheVinculos l) = true <;>
  by_cases e3 : categoriaIncompativel (preencheVinculos l) = true <;>
  by_cases e4 : pendenteSemVencimento (preencheVinculos l) = true <;>
  by_cases e5 : pagoComVencimentoFuturo hoje (preencheVinculos l) = true <;>
  simp [e1, e2, e3, e4, e5]

/-- C6: validation first auto-populates the contract from the item and then
the client from that contract, before any consistency rule is checked: on an
entry with only the item set both links are derived from the item's
contract; on an entry with a contract and no client, the client is derived
from the contract; and the error map is computed on the auto-filled entry. -/
theorem clean_deriva_vinculos_antes (hoje : Date) (l : Lancamento) :
    (∀ it : ItemContrato, l.item_contrato = some it → l.contrato = none →
      l.cliente_id = none →
      (cleanLancamento hoje l).1.contrato = some it.contrato ∧
      (cleanLancamento hoje l).1.cliente_id = some it.contrato.cliente_id) ∧
    (∀ c : Contrato, l.contrato = some c → l.cliente_id = none →
      (cleanLancamento hoje l).1.cliente_id = some c.cliente_id) ∧
    (cleanLancamento hoje l).2 = verificaConsistencia hoje (cleanLancamento hoje l).1 := by
  refine ⟨?_, ?_, rfl⟩
  · intro it hitem hcontrato hcliente
    simp [cleanLancamento, preencheVinculos, hitem, hcontrato, hcliente]
  · intro c hcontrato hcliente
    simp [cleanLancamento, preencheVinculos, hcontrato, hcliente]

theorem clean_deriva_vinculos_antes_witness :
    (cleanLancamento exHoje exLancSoItem).1.contrato = some exItem.contrato ∧
    (cleanLancamento exHoje exLancSoItem).1.cliente_id = some exItem.contrato.cliente_id :=
  (clean_deriva_vinculos_antes exHoje exLancSoItem).1 exItem rfl rfl rfl

/-- Django's `Sum` aggregate with the `or Decimal("0")` fallback is the plain
list sum (zero on an empty queryset). -/
lemma orZero_aggregateSum (vals : List Int) : orZero (aggregateSum vals) = vals.sum := by
  cases vals with
  | nil => rfl
  | cons v resto => rfl

/-- C7: the current balance of a bank account equals its opening balance
plus the sum of the values of its paid `ENTRADA` entries minus the sum of
the values of its paid `SAIDA` entries, in exact integer-cents arithmetic;
with no entries at all each sum contributes zero and the balance is the
opening balance; and on opening balance 0 with paid income 100.50 and paid
expense 40.30 the result is exactly 60.20 (6020 cents). -/
theorem saldo_atual_correto :
    (∀ (conta : ContaBancaria) (db : List Lancamento),
      saldoAtual conta db = conta.saldo_inicial
        + ((db.filter (fun l => l.conta_id == conta.id && l.tipo == "ENTRADA"
            && l.situacao == "PAGO")).map (·.valor)).sum
        - ((db.filter (fun l => l.conta_id == conta.id && l.tipo == "SAIDA"
            && l.situacao == "PAGO")).map (·.valor)).sum) ∧
    (∀ conta : ContaBancaria, saldoAtual conta [] = conta.saldo_inicial) ∧
    saldoAtual exConta
      [⟨"ENTRADA", none, none, none, some exCategoria, none, 1, "Entrada", 10050, none,
        ⟨2025, 2, 1⟩, some ⟨2025, 2, 1⟩, "PAGO", false, false⟩,
       ⟨"SAIDA", none, none, none, some exCategoriaSaida, none, 1, "Saida", 4030, none,
        ⟨2025, 2, 1⟩, some ⟨2025, 2, 1⟩, "PAGO", false, false⟩] = 6020 := by
  refine ⟨?_, ?_, by decide⟩
  · intro conta db
    unfold saldoAtual
    rw [orZero_aggregateSum, orZero_aggregateSum]
  · intro conta
    unfold saldoAtual
    simp [aggregateSum, orZero]

/-- A list of length 11 is an explicit 11-tuple. -/
lemma exists_eleven {α : Type} (ds : List α) (h : ds.length = 11) :
    ∃ a0 a1 a2 a3 a4 a5 a6 a7 a8 a9 a10,
      ds = [a0, a1, a2, a3, a4, a5, a6, a7, a8, a9, a10] := by
  cases ds with
  | nil => simp at h
  | cons a0 t =>
  cases t with
  | nil => simp at h
  | cons a1 t =>
  cases t with
  | nil => simp at h
  | cons a2 t =>
  cases t with
  | nil => simp at h
  | cons a3 t =>
  cases t with
  | nil => simp at h
  | cons a4 t =>
  cases t with
  | nil => simp at h
  | cons a5 t =>
  cases t with
  | nil => simp at h
  | cons a6 t =>
  cases t with
  | nil => simp at h
  | cons a7 t =>
  cases t with
  | nil => simp at h
  | cons a8 t =>
  cases t with
  | nil => simp at h
  | cons a9 t =>
  cases t with
  | nil => simp at h
  | cons a10 t =>
  cases t with
  | nil => exact ⟨a0, a1, a2, a3, a4, a5, a6, a7, a8, a9, a10, rfl⟩
  | cons a11 t => simp at h

/-- The check-digit comparison is insensitive to whether the second digit is
computed over the input's tenth digit or over the computed first digit: when
the tenth digit differs from the computed first digit both comparisons fail
on their first component. -/
lemma beq_pair_digit (a9 a10 d1 r2code r2spec : Nat)
    (h : a9 = d1 → r2code = r2spec) :
    ((a9 == d1) && (a10 == if r2code % 11 < 2 then 0 else 11 - r2code % 11))
      = ((a9 == d1) && (a10 == if r2spec % 11 < 2 then 0 else 11 - r2spec % 11)) := by
  by_cases h9 : a9 = d1
  · rw [h h9]
  · have hfalse : (a9 == d1) = false := by simp [h9]
    rw [hfalse]
    simp

/-- The function `valida_cpf` agrees with the spec's formulation of the CPF rule. -/
lemma validaCpf_eq_cpfSpecValid (cpf : Option String) :
    validaCpf cpf = cpfSpecValid cpf := by
  unfold validaCpf cpfSpecValid
  by_cases hlen : (apenasDigitos (cpf.getD "")).length = 11
  · obtain ⟨a0, a1, a2, a3, a4, a5, a6, a7, a8, a9, a10, hds⟩ :=
      exists_eleven (apenasDigitos (cpf.getD "")) hlen
    rw [hds]
    by_cases hall : todosIguais [a0, a1, a2, a3, a4, a5, a6, a7, a8, a9, a10] = true
    · simp [hall]
    · simp at hall
      simp only [hall, calcDigito, somaComFatorDecrescente]
      norm_num
      apply beq_pair_digit
      intro h9
      rw [h9, ite_mul]
  · have h1 : ((apenasDigitos (cpf.getD "")).length != 11) = true := by
      simpa using hlen
    have h2 : ((apenasDigitos (cpf.getD "")).length == 11) = false := by
      simpa using hlen
    simp [h1, h2]

/-- C8: `valida_cpf` is total over string input (absent input handled as
empty) and matches the spec's check-digit rule exactly: it equals the
spec-worded predicate `cpfSpecValid` on every input, its verdict depends
only on the digits left after stripping punctuation (so a valid CPF
validates identically with or without punctuation), absent input yields
false, the canonical CPF 390.533.447-05 validates with and without
punctuation, an all-identical-digits string is rejected, and a wrong check
digit is rejected. -/
theorem valida_cpf_total_e_correto :
    (∀ cpf : Option String, validaCpf cpf = cpfSpecValid cpf) ∧
    (∀ s : String,
      validaCpf (some s) = validaCpf (some (String.mk (s.data.filter Char.isDigit)))) ∧
    validaCpf none = false ∧
    validaCpf (some "390.533.447-05") = true ∧
    validaCpf (some "39053344705") = true ∧
    validaCpf (some "00000000000") = false ∧
    validaCpf (some "39053344704") = false := by
  refine ⟨validaCpf_eq_cpfSpecValid, ?_, rfl, by decide, by decide, by decide, by decide⟩
  intro s
  have hstrip : apenasDigitos (String.mk (s.data.filter Char.isDigit)) = apenasDigitos s := by
    simp [apenasDigitos, List.filter_filter]
  unfold validaCpf
  rw [Option.getD_some, Option.getD_some, hstrip]

theorem clean_coleta_todas_as_violacoes_witness :
    (("item_contrato" ∈ (cleanLancamento exHoje exLancSoItem).2.map Prod.fst) ↔
      itemForaDoContrato (cleanLancamento exHoje exLancSoItem).1 = true) ∧
    (("cliente" ∈ (cleanLancamento exHoje exLancSoItem).2.map Prod.fst) ↔
      clienteDivergente (cleanLancamento exHoje exLancSoItem).1 = true) ∧
    (("categoria" ∈ (cleanLancamento exHoje exLancSoItem).2.map Prod.fst) ↔
      categoriaIncompativel (cleanLancamento exHoje exLancSoItem).1 = true) ∧
    (("data_vencimento" ∈ (cleanLancamento exHoje exLancSoItem).2.map Prod.fst) ↔
      (pendenteSemVencimento (cleanLancamento exHoje exLancSoItem).1 = true ∨
        pagoComVencimentoFuturo exHoje (cleanLancamento exHoje exLancSoItem).1 = true)) ∧
    ((cleanLancamento exHoje exLancSoItem).2 = [] ↔
      (itemForaDoContrato (cleanLancamento exHoje exLancSoItem).1 = false ∧
        clienteDivergente (cleanLancamento exHoje exLancSoItem).1 = false ∧
        categoriaIncompativel (cleanLancamento exHoje exLancSoItem).1 = false ∧
        pendenteSemVencimento (cleanLancamento exHoje exLancSoItem).1 = false ∧
        pagoComVencimentoFuturo exHoje (cleanLancamento exHoje exLancSoItem).1 = false)) :=
  clean_coleta_todas_as_violacoes exHoje exLancSoItem

theorem saldo_atual_correto_witness :
    saldoAtual exConta [] = exConta.saldo_inicial :=
  saldo_atual_correto.2.1 exConta

theorem valida_cpf_total_e_correto_witness :
    validaCpf (some "123") = cpfSpecValid (some "123") :=
  valida_cpf_total_e_correto.1 (some "123")
